import Mathlib

/-!
Verification of the git smart-protocol HTTP client transport
(`src/git-transport/src/client/http/mod.rs`) against its specification.

The transport's own logic is embedded from the source file. Collaborator
types that live elsewhere in the workspace — the `Service` and `Protocol`
enums, the `Http` trait with its response payloads, the packet-line
`Provider` and the capability/reference parser — are modelled from the
spec, each marked as such in its doc comment.

Conventions of the embedding: a body stream is the list of results of its
successive read-like calls; machine state mutated through `&mut self` in
the source is passed and returned explicitly; a Rust `panic!`/`expect`
is a distinguished `Outcome.panic` constructor, disjoint from recoverable
errors; the trace of HTTP calls issued is returned alongside the result so
that "no network request happened" is a provable statement.
-/

namespace GitHttp

/-- The git service being negotiated; the `Service` enum itself is declared in
`git-transport` outside `src/`. -/
inductive Service where
  | uploadPack
  | receivePack
deriving DecidableEq

/-- Modelled from the spec: `Service::as_str`, the protocol-defined string token
of a service, is not under `src/`. The spec's handshake example expects the
announcement `# service=git-upload-pack`, and its wire-protocol section uses the
same token in the `info/refs?service=...` URL, so the token carries the `git-`
prefix. -/
def Service.as_str : Service → String
  | .uploadPack => "git-upload-pack"
  | .receivePack => "git-receive-pack"

/-- Modelled from the spec: the negotiated wire-protocol version enum
(`crate::Protocol`, not under `src/`); V1 is the legacy default and higher
versions add the negotiation header. -/
inductive Protocol where
  | V1
  | V2
deriving DecidableEq

/-- Modelled from the spec: the numeric value `version as usize` interpolated
into `Git-Protocol: version=<N>`. -/
def Protocol.toNat : Protocol → Nat
  | .V1 => 1
  | .V2 => 2

/-- Modelled from the spec: the detail error of the HTTP abstraction
(`http::Error::Detail`, declared in `traits.rs` which is not under `src/`). -/
inductive HttpError where
  | detail (msg : String)
deriving DecidableEq

/-- Modelled from the spec: the error type the transport propagates
(`client::Error`, not under `src/`): an HTTP-level error, or some other
propagated failure carried here as a message. -/
inductive ClientError where
  | http (e : HttpError)
  | io (msg : String)
deriving DecidableEq

/-- An I/O-level error of a body stream. `other` is
`io::Error::new(ErrorKind::Other, e)` wrapping a client error, as produced by
`HeadersThenBody::handle_headers`; `custom` stands for any backend stream
failure. -/
inductive IoError where
  | other (e : ClientError)
  | custom (msg : String)
deriving DecidableEq

/-- The expected header line `Content-Type: application/x-<service>-<kind>`
built by `check_content_type` at mod.rs:44. -/
def wanted_content_type (service : Service) (kind : String) : String :=
  "Content-Type: application/x-" ++ service.as_str ++ "-" ++ kind

/-- Embedding of `Transport::check_content_type`, mod.rs:43-57: the header set
must contain a line exactly equal to the wanted content-type line, otherwise a
`Detail` error reports the missing header. Per the spec's data model the header
set is an ordered sequence of header lines, so it is a plain list here and the
source's fallible line iteration cannot fail. -/
def check_content_type (service : Service) (kind : String) (headers : List String) :
    Except ClientError Unit :=
  let wanted := wanted_content_type service kind
  if wanted ∈ headers then
    Except.ok ()
  else
    Except.error (ClientError.http (HttpError.detail
      ("Didn't find '" ++ wanted ++
        "' header to indicate 'smart' protocol, and 'dumb' protocol is not supported.")))

/-- Rust's `str::ends_with(c: char)`: the last character of the string equals
`c`. Stated over the character list so that it evaluates by kernel
reduction. -/
def ends_with (s : String) (c : Char) : Bool :=
  match s.data.getLast? with
  | some d => d == c
  | none => false

/-- Rust's `str::trim`: whitespace removed from both ends. Stated over the
character list so that it evaluates by kernel reduction; Rust trims Unicode
whitespace, of which the ASCII subset is modelled. -/
def rust_trim (s : String) : String :=
  String.mk ((((s.data.dropWhile Char.isWhitespace).reverse.dropWhile
    Char.isWhitespace).reverse))

/-- Embedding of `append_url`, mod.rs:60-66. -/
def append_url (base suffix : String) : String :=
  if ends_with base '/' then base ++ suffix else base ++ "/" ++ suffix

deriving instance DecidableEq for Except

/-- A streamed response body, abstracted as the successive results of read-like
calls against it; the backend body type is opaque to the transport. -/
structure BodyStream where
  chunks : List (Except IoError (List Nat))
deriving DecidableEq

/-- One consuming read: the next chunk, or an empty read at end of stream. -/
def BodyStream.read : BodyStream → Except IoError (List Nat) × BodyStream
  | ⟨[]⟩ => (Except.ok [], ⟨[]⟩)
  | ⟨c :: rest⟩ => (c, ⟨rest⟩)

/-- One buffer fill: like `read` but non-consuming, as `fill_buf` exposes the
buffer without advancing until `consume`. -/
def BodyStream.fill_buf : BodyStream → Except IoError (List Nat) × BodyStream
  | ⟨[]⟩ => (Except.ok [], ⟨[]⟩)
  | ⟨c :: rest⟩ => (c, ⟨c :: rest⟩)

/-- Modelled from the spec: the observable content of a GET response body as
`handshake` consumes it through the packet-line engine (`git-packetline`, not
under `src/`): the text of the first packet-line section as read to string,
with I/O failures already converted to the client error, and the outcome of the
external capability/reference parser
(`git::recv::capabilties_and_possibly_refs`, not under `src/`), which returns
the capability list and, depending on protocol version, an optional reference
list. -/
structure GetBody where
  announced : Except ClientError String
  parsed : Except ClientError (List String × Option (List String))
deriving DecidableEq

/-- The stream a packet-line provider currently wraps: the GET body installed
by `handshake`, or a POST body after `request` rebinds it. -/
inductive ProviderBody where
  | fromGet (b : GetBody)
  | fromPost (b : BodyStream)
deriving DecidableEq

/-- Modelled from the spec: the packet-line reader `git_packetline::Provider`
(not under `src/`), abstracted to the stream it currently wraps; the flush
terminator passed to `Provider::new(body, PacketLine::Flush)` is implicit in
the `GetBody` abstraction. -/
structure Provider where
  body : ProviderBody
deriving DecidableEq

/-- Modelled from the spec: `Provider::new(body, PacketLine::Flush)`. -/
def Provider.new (b : GetBody) : Provider :=
  ⟨ProviderBody.fromGet b⟩

/-- Modelled from the spec: `Provider::replace(new_body)` rebinds the reader to
a new underlying stream while preserving its identity. -/
def Provider.replace (_p : Provider) (b : BodyStream) : Provider :=
  ⟨ProviderBody.fromPost b⟩

/-- Modelled from the spec: `.as_read().read_to_string(..)` at mod.rs:84, the
text of the first packet-line section; a provider still wrapping a POST body
yields an empty string (that case is unreachable in the flows the source
exercises). -/
def Provider.as_read_to_string : Provider → Except ClientError String
  | ⟨ProviderBody.fromGet b⟩ => b.announced
  | ⟨ProviderBody.fromPost _⟩ => Except.ok ""

/-- Modelled from the spec: `.as_read_without_sidebands()`, the byte-stream
view with side-band tags stripped, abstracted to the underlying stream's read;
on a not-yet-rebound provider it reads nothing (unreachable in the source's
flows, where `request` rebinds before exposing this view). -/
def Provider.read_without_sidebands : Provider → Except IoError (List Nat) × Provider
  | ⟨ProviderBody.fromGet b⟩ => (Except.ok [], ⟨ProviderBody.fromGet b⟩)
  | ⟨ProviderBody.fromPost b⟩ =>
    let (r, b1) := b.read
    (r, ⟨ProviderBody.fromPost b1⟩)

/-- Modelled from the spec: the external capability/reference parser invoked at
mod.rs:94 (`git::recv::capabilties_and_possibly_refs`, not under `src/`; the
source's spelling is kept). It consumes the remaining packet-line stream, here
the oracle carried by the GET body; the protocol version only selects how refs
are parsed and is not further modelled. -/
def capabilties_and_possibly_refs (p : Provider) (_version : Protocol) :
    Except ClientError (List String × Option (List String)) :=
  match p.body with
  | ProviderBody.fromGet b => b.parsed
  | ProviderBody.fromPost _ => Except.ok ([], none)

/-- Modelled from the spec: `GetResponse` of `traits.rs` (not under `src/`),
a header set plus a streamed body. -/
structure GetResponse where
  headers : List String
  body : GetBody

/-- Modelled from the spec: `PostResponse` of `traits.rs` (not under `src/`),
a header set, a streamed response body and a streamed request-body sink. -/
structure PostResponse where
  headers : List String
  body : BodyStream
  post_body : Unit

/-- Modelled from the spec: the HTTP capability abstraction (`trait Http` of
`traits.rs`, not under `src/`): issue a GET or POST with pre-formatted header
lines and obtain the response payload or an error. -/
structure Http where
  get : String → List String → Except ClientError GetResponse
  post : String → List String → Except ClientError PostResponse

/-- An HTTP call as observably issued by the transport; the operations below
return the trace of these, so that the absence of network activity is
provable. -/
inductive HttpCall where
  | get (url : String) (headers : List String)
  | post (url : String) (headers : List String)
deriving DecidableEq

/-- Embedding of `struct Transport`, mod.rs:20-27. The backend instance stored
in the source struct's `http` field is passed to each operation explicitly, to
keep the state first-order. -/
structure Transport where
  url : String
  user_agent_header : String
  version : Protocol
  service : Option Service
  line_provider : Option Provider
deriving DecidableEq

/-- Modelled from the spec: the fixed user-agent header value of mod.rs:33; the
crate version baked in by the source is not under `src/`, so a fixed stand-in
version string is used. -/
def user_agent : String := "User-Agent: git/oxide-0"

/-- Embedding of `Transport::new`, mod.rs:30-39. -/
def Transport.new (url : String) (version : Protocol) : Transport :=
  { url := url
    user_agent_header := user_agent
    version := version
    service := none
    line_provider := none }

/-- Outcome of a transport operation: an `expect`-style panic (a programmer
error, not a recoverable value), a recoverable error, or success. -/
inductive Outcome (ε α : Type) where
  | panic (msg : String)
  | error (e : ε)
  | ok (a : α)
deriving DecidableEq

def Outcome.isOk {ε α : Type} : Outcome ε α → Bool
  | .ok _ => true
  | _ => false

def Outcome.isError {ε α : Type} : Outcome ε α → Bool
  | .error _ => true
  | _ => false

def Outcome.isPanic {ε α : Type} : Outcome ε α → Bool
  | .panic _ => true
  | _ => false

def Outcome.getOk? {ε α : Type} : Outcome ε α → Option α
  | .ok a => some a
  | _ => none

/-- Modelled from the spec: `client::SetServiceResponse` (not under `src/`),
the result of a successful handshake: negotiated protocol, capabilities, and
the optional already-parsed reference list. -/
structure SetServiceResponse where
  actual_protocol : Protocol
  capabilities : List String
  refs : Option (List String)
deriving DecidableEq

/-- The URL composed at mod.rs:70. -/
def handshake_url (t : Transport) (service : Service) : String :=
  append_url t.url ("info/refs?service=" ++ service.as_str)

/-- The header list of mod.rs:71-75: the static user-agent header chained with
the dynamic `Git-Protocol` header, which is pushed exactly when the configured
version is not V1. -/
def handshake_headers (t : Transport) : List String :=
  [t.user_agent_header] ++
    (if t.version ≠ Protocol.V1 then
      ["Git-Protocol: version=" ++ toString t.version.toNat]
    else [])

/-- The announcement-mismatch message of mod.rs:87-91. The source formats the
expected and the actual text with `Debug` formatting, modelled here as
quote-wrapping without escapes. -/
def mismatch_message (expected actual : String) : String :=
  "Expected to see \"" ++ expected ++ "\", but got \"" ++ actual ++ "\""

/-- Embedding of `Transport::handshake`, mod.rs:69-101, returning the outcome,
the transport state after the call (the source mutates `self` in place), and
the trace of HTTP calls issued. Note the order of effects, exactly as in the
source: the packet-line provider is installed with `get_or_insert_with`
directly after the content-type gate, before the service-announcement check
and the capability parse; `self.service` is assigned only as the very last
step before returning success. Rust's `str::trim` removes whitespace from both
ends and is modelled by `rust_trim`. -/
def handshake (t : Transport) (http : Http) (service : Service) :
    Outcome ClientError SetServiceResponse × Transport × List HttpCall :=
  let url := handshake_url t service
  let hdrs := handshake_headers t
  let calls := [HttpCall.get url hdrs]
  match http.get url hdrs with
  | Except.error e => (Outcome.error e, t, calls)
  | Except.ok resp =>
    match check_content_type service "advertisement" resp.headers with
    | Except.error e => (Outcome.error e, t, calls)
    | Except.ok _ =>
      let line_reader := t.line_provider.getD (Provider.new resp.body)
      let t1 := { t with line_provider := some line_reader }
      match line_reader.as_read_to_string with
      | Except.error e => (Outcome.error e, t1, calls)
      | Except.ok announced_service =>
        let expected_service_announcement := "# service=" ++ service.as_str
        if rust_trim announced_service ≠ expected_service_announcement then
          (Outcome.error (ClientError.http (HttpError.detail
            (mismatch_message expected_service_announcement (rust_trim announced_service)))),
            t1, calls)
        else
          match capabilties_and_possibly_refs line_reader t.version with
          | Except.error e => (Outcome.error e, t1, calls)
          | Except.ok (capabilities, refs) =>
            (Outcome.ok
              { actual_protocol := t.version
                capabilities := capabilities
                refs := refs },
              { t1 with service := some service }, calls)

/-- Modelled from the spec: `client::WriteMode` (not under `src/`), raw versus
framed write semantics of the request writer. -/
inductive WriteMode where
  | raw
  | framed
deriving DecidableEq

/-- Modelled from the spec: `client::MessageKind` (not under `src/`), the
control messages emitted when the writer is released. -/
inductive MessageKind where
  | flush
deriving DecidableEq

/-- Modelled from the spec: the object
`RequestWriter::new_from_bufread(post_body, reader, write_mode, on_drop)`
returns (not under `src/`): it pairs the POST request-body sink with the
readable reply stream and the write/drop configuration. -/
structure RequestWriter where
  post_body : Unit
  reply : Provider
  write_mode : WriteMode
  on_drop : List MessageKind
deriving DecidableEq

/-- The header list of mod.rs:110-114, exactly as the source formats it: note
the literal `git-` written in front of `service.as_str()` in both the
`Content-Type` and the `Accept` line, plus the explicitly empty `Expect:`. -/
def request_headers (service : Service) : List String :=
  ["Content-Type: application/x-git-" ++ service.as_str ++ "-request",
   "Accept: application/x-git-" ++ service.as_str ++ "-result",
   "Expect:"]

/-- Embedding of `Transport::request`, mod.rs:103-133: `expect`-panics before
doing anything else when no service is set; otherwise composes the URL, issues
the POST, `expect`-panics if no line provider exists, rebinds the provider to
the POST response body and returns the writer whose reply stream is the
provider's side-band-stripped view. The content-type check of the POST
response is absent, exactly as in the source, where it is only a commented-out
TODO at mod.rs:120-121: the response header set is discarded unvalidated and
`HeadersThenBody` is never constructed. -/
def request (t : Transport) (http : Http) (write_mode : WriteMode)
    (on_drop : List MessageKind) :
    Outcome ClientError RequestWriter × Transport × List HttpCall :=
  match t.service with
  | none => (Outcome.panic "handshake() must have been called first", t, [])
  | some service =>
    let url := append_url t.url service.as_str
    let hdrs := request_headers service
    match http.post url hdrs with
    | Except.error e => (Outcome.error e, t, [HttpCall.post url hdrs])
    | Except.ok resp =>
      match t.line_provider with
      | none =>
        (Outcome.panic "handshake to have been called first", t,
          [HttpCall.post url hdrs])
      | some line_provider =>
        let line_provider1 := line_provider.replace resp.body
        let t1 := { t with line_provider := some line_provider1 }
        (Outcome.ok
          { post_body := resp.post_body
            reply := line_provider1
            write_mode := write_mode
            on_drop := on_drop },
          t1, [HttpCall.post url hdrs])

/-- Embedding of `struct HeadersThenBody`, mod.rs:136-140: the
deferred-validation wrapper pairing an optional header set with a body
stream. -/
structure HeadersThenBody where
  service : Service
  headers : Option (List String)
  body : BodyStream
deriving DecidableEq

/-- Embedding of `HeadersThenBody::handle_headers`, mod.rs:143-149:
`Option::take` clears the stored headers; when they were still present the
content-type gate runs for kind "result" and a failure is converted into a
generic I/O-level error. -/
def HeadersThenBody.handle_headers (h : HeadersThenBody) :
    Except IoError Unit × HeadersThenBody :=
  match h.headers with
  | some headers =>
    let h1 := { h with headers := none }
    match check_content_type h.service "result" headers with
    | Except.error err => (Except.error (IoError.other err), h1)
    | Except.ok _ => (Except.ok (), h1)
  | none => (Except.ok (), h)

/-- Embedding of the `io::Read` impl, mod.rs:152-157: run `handle_headers`
first, propagate its error, then delegate to the inner body. -/
def HeadersThenBody.read (h : HeadersThenBody) :
    Except IoError (List Nat) × HeadersThenBody :=
  match h.handle_headers with
  | (Except.error e, h1) => (Except.error e, h1)
  | (Except.ok _, h1) =>
    let (r, b1) := h1.body.read
    (r, { h1 with body := b1 })

/-- Embedding of `fill_buf` of the `io::BufRead` impl, mod.rs:159-163. -/
def HeadersThenBody.fill_buf (h : HeadersThenBody) :
    Except IoError (List Nat) × HeadersThenBody :=
  match h.handle_headers with
  | (Except.error e, h1) => (Except.error e, h1)
  | (Except.ok _, h1) =>
    let (r, b1) := h1.body.fill_buf
    (r, { h1 with body := b1 })

/-- A read-like operation against the wrapper: a byte read or a buffer fill. -/
inductive ReadOp where
  | read
  | fillBuf
deriving DecidableEq

/-- The corresponding operation against a bare body stream. -/
def BodyStream.step (b : BodyStream) : ReadOp → Except IoError (List Nat) × BodyStream
  | ReadOp.read => b.read
  | ReadOp.fillBuf => b.fill_buf

/-- One read-like operation against the wrapper. -/
def HeadersThenBody.step (h : HeadersThenBody) :
    ReadOp → Except IoError (List Nat) × HeadersThenBody
  | ReadOp.read => h.read
  | ReadOp.fillBuf => h.fill_buf

/-- Number of invocations of the content-type check across a sequence of
read-like operations: `handle_headers` invokes `check_content_type` exactly
when the stored header set is still present when the operation starts. -/
def HeadersThenBody.checkInvocations (h : HeadersThenBody) : List ReadOp → Nat
  | [] => 0
  | op :: ops =>
    (if h.headers.isSome then 1 else 0) + ((h.step op).2.checkInvocations ops)

/-- Follows the spec's words for the announcement comparison of claim C6,
which says the line is compared "after trimming trailing whitespace/newline":
a trailing-only trim, to be compared with the source's two-sided `trim`. -/
def spec_trim_trailing (s : String) : String :=
  String.mk ((s.data.reverse.dropWhile Char.isWhitespace).reverse)

/-- A well-formed advertisement header set for the upload-pack service. -/
def adv_headers : List String :=
  ["Content-Type: application/x-git-upload-pack-advertisement"]

/-- A GET body carrying a correct upload-pack announcement and a successful
parse. -/
def good_get_body : GetBody :=
  { announced := Except.ok "# service=git-upload-pack"
    parsed := Except.ok (["multi_ack"], some ["refs/heads/main"]) }

/-- A backend whose GET response is a well-formed upload-pack advertisement and
whose POST response has an empty header set (so the expected result
content-type line is absent) and a three-byte body. -/
def good_http : Http :=
  { get := fun _ _ => Except.ok { headers := adv_headers, body := good_get_body }
    post := fun _ _ =>
      Except.ok { headers := [], body := ⟨[Except.ok [1, 2, 3]]⟩, post_body := () } }

/-- A GET body announcing the wrong service. -/
def mismatch_get_body : GetBody :=
  { announced := Except.ok "# service=git-receive-pack"
    parsed := Except.ok ([], none) }

/-- A backend whose GET response passes the content-type gate but announces the
wrong service. -/
def mismatch_http : Http :=
  { get := fun _ _ => Except.ok { headers := adv_headers, body := mismatch_get_body }
    post := fun _ _ => Except.error (ClientError.http (HttpError.detail "unused")) }

/-- A GET body whose announcement carries a leading space. -/
def padded_get_body : GetBody :=
  { announced := Except.ok " # service=git-upload-pack"
    parsed := Except.ok ([], none) }

/-- A backend whose GET response passes the content-type gate and announces the
right service with a leading space. -/
def padded_http : Http :=
  { get := fun _ _ => Except.ok { headers := adv_headers, body := padded_get_body }
    post := fun _ _ => Except.error (ClientError.http (HttpError.detail "unused")) }

/-- The transport state after a successful upload-pack handshake against
`good_http`, used to exercise `request`. -/
def t_after_handshake : Transport :=
  (handshake (Transport.new "https://h/r" Protocol.V1) good_http Service.uploadPack).2.1

/-- Helper: `request` with no service set panics at once, before composing the
URL and before any backend call. -/
theorem request_no_service (t : Transport) (http : Http) (wm : WriteMode)
    (od : List MessageKind) (h : t.service = none) :
    request t http wm od =
      (Outcome.panic "handshake() must have been called first", t, []) := by
  unfold request
  rw [h]

/-- Helper: every `handshake` execution issues exactly one GET, at the composed
URL with the composed headers, regardless of how it ends. -/
theorem handshake_calls (t : Transport) (http : Http) (svc : Service) :
    (handshake t http svc).2.2 =
      [HttpCall.get (handshake_url t svc) (handshake_headers t)] := by
  simp only [handshake]
  repeat' split
  all_goals rfl

/-- Helper: a successful `handshake` leaves the service set to the requested
one and the line provider present. -/
theorem handshake_ok_state (t : Transport) (http : Http) (svc : Service) :
    (handshake t http svc).1.isOk = true →
      (handshake t http svc).2.1.service = some svc ∧
      ((handshake t http svc).2.1.line_provider).isSome = true := by
  simp only [handshake]
  repeat' split
  all_goals simp [Outcome.isOk]

/-- Helper: a `handshake` that returns an error leaves the `service` field
exactly as it was. -/
theorem handshake_error_service (t : Transport) (http : Http) (svc : Service) :
    (handshake t http svc).1.isError = true →
      (handshake t http svc).2.1.service = t.service := by
  simp only [handshake]
  repeat' split
  all_goals simp [Outcome.isError]

/-- C9: for every pair of strings, `append_url` is total and pure (it is a Lean
function) and concatenates directly when the base ends with a slash, inserting
exactly one slash otherwise. -/
theorem claim_C9 (base suffix : String) :
    (ends_with base '/' = true → append_url base suffix = base ++ suffix) ∧
    (ends_with base '/' = false → append_url base suffix = base ++ "/" ++ suffix) := by
  constructor <;> intro h <;> simp [append_url, h]

theorem claim_C9_witness :
    append_url "https://host/repo" "info/refs" = "https://host/repo" ++ "/" ++ "info/refs" ∧
    append_url "https://host/repo/" "info/refs" = "https://host/repo/" ++ "info/refs" :=
  ⟨(claim_C9 "https://host/repo" "info/refs").2 (by decide),
   (claim_C9 "https://host/repo/" "info/refs").1 (by decide)⟩

/-- C5: `check_content_type` succeeds exactly when the header set contains the
line `Content-Type: application/x-<service>-<kind>` verbatim; with the exact
upload-pack advertisement line present it succeeds, and with only the
`; charset=utf-8` near-miss present it fails with the protocol-mismatch error
naming the expected header. -/
theorem claim_C5 :
    (∀ (service : Service) (kind : String) (headers : List String),
      check_content_type service kind headers = Except.ok () ↔
        wanted_content_type service kind ∈ headers) ∧
    check_content_type Service.uploadPack "advertisement"
      ["Content-Type: application/x-git-upload-pack-advertisement"] = Except.ok () ∧
    check_content_type Service.uploadPack "advertisement"
      ["Content-Type: application/x-git-upload-pack-advertisement; charset=utf-8"] =
      Except.error (ClientError.http (HttpError.detail
        ("Didn't find '" ++ wanted_content_type Service.uploadPack "advertisement" ++
          "' header to indicate 'smart' protocol, and 'dumb' protocol is not supported."))) := by
  refine ⟨?_, by decide, by decide⟩
  intro service kind headers
  simp only [check_content_type]
  split
  · next h => simpa using h
  · next h => simp [h]

/-- C3: calling `request` with `service` still `None` panics with the
handshake-first message — an assertion-style failure distinct from a
recoverable error value — leaving the state untouched and issuing no HTTP call
at all, hence aborting before the POST URL is even composed. -/
theorem claim_C3 (t : Transport) (http : Http) (wm : WriteMode)
    (od : List MessageKind) (h : t.service = none) :
    request t http wm od =
      (Outcome.panic "handshake() must have been called first", t, []) :=
  request_no_service t http wm od h

theorem claim_C3_witness :
    request (Transport.new "https://host/repo" Protocol.V1) mismatch_http WriteMode.raw [] =
      (Outcome.panic "handshake() must have been called first",
        Transport.new "https://host/repo" Protocol.V1, []) :=
  claim_C3 (Transport.new "https://host/repo" Protocol.V1) mismatch_http WriteMode.raw [] rfl

/-- C8: every `handshake(service)` call issues its GET at the base URL joined
(slash-normalized) with `info/refs?service=<token>`, and the header list always
contains the user-agent header and contains `Git-Protocol: version=<N>` exactly
when the configured protocol version is not V1. -/
theorem claim_C8 (t : Transport) (http : Http) (svc : Service)
    (hua : t.user_agent_header = user_agent) :
    (handshake t http svc).2.2 =
      [HttpCall.get (append_url t.url ("info/refs?service=" ++ svc.as_str))
        (handshake_headers t)] ∧
    t.user_agent_header ∈ handshake_headers t ∧
    ((("Git-Protocol: version=" ++ toString t.version.toNat) ∈ handshake_headers t) ↔
      t.version ≠ Protocol.V1) := by
  refine ⟨handshake_calls t http svc, ?_, ?_⟩
  · simp [handshake_headers]
  · cases hv : t.version
    · simp only [handshake_headers, hv, hua]
      decide
    · simp only [handshake_headers, hv, hua]
      decide

theorem claim_C8_witness :
    (handshake (Transport.new "u" Protocol.V2) mismatch_http Service.uploadPack).2.2 =
      [HttpCall.get (append_url (Transport.new "u" Protocol.V2).url
          ("info/refs?service=" ++ Service.uploadPack.as_str))
        (handshake_headers (Transport.new "u" Protocol.V2))] ∧
    (Transport.new "u" Protocol.V2).user_agent_header ∈
      handshake_headers (Transport.new "u" Protocol.V2) ∧
    ((("Git-Protocol: version=" ++ toString (Transport.new "u" Protocol.V2).version.toNat) ∈
        handshake_headers (Transport.new "u" Protocol.V2)) ↔
      (Transport.new "u" Protocol.V2).version ≠ Protocol.V1) :=
  claim_C8 (Transport.new "u" Protocol.V2) mismatch_http Service.uploadPack rfl

/-- C10: `handshake` assigns `service` only on full success, so a successful
call sets it to the requested service, an erroring call leaves it exactly as it
was, and on a transport whose service was still unset a failed handshake still
leaves `request` tripping the handshake-first panic with no HTTP call
issued. -/
theorem claim_C10 (t : Transport) (http : Http) (svc : Service) :
    ((handshake t http svc).1.isOk = true →
      (handshake t http svc).2.1.service = some svc) ∧
    ((handshake t http svc).1.isError = true →
      (handshake t http svc).2.1.service = t.service) ∧
    (t.service = none → (handshake t http svc).1.isError = true →
      ∀ (http2 : Http) (wm : WriteMode) (od : List MessageKind),
        request (handshake t http svc).2.1 http2 wm od =
          (Outcome.panic "handshake() must have been called first",
            (handshake t http svc).2.1, [])) := by
  refine ⟨fun h => (handshake_ok_state t http svc h).1,
    handshake_error_service t http svc, ?_⟩
  intro hnone herr http2 wm od
  exact request_no_service _ http2 wm od
    (by rw [handshake_error_service t http svc herr, hnone])

theorem claim_C10_witness :
    request (handshake (Transport.new "u" Protocol.V1) mismatch_http Service.uploadPack).2.1
        mismatch_http WriteMode.raw [] =
      (Outcome.panic "handshake() must have been called first",
        (handshake (Transport.new "u" Protocol.V1) mismatch_http Service.uploadPack).2.1, []) :=
  (claim_C10 (Transport.new "u" Protocol.V1) mismatch_http Service.uploadPack).2.2 rfl
    (by decide) mismatch_http WriteMode.raw []

/-- C1 as stated is false on the code: a handshake whose GET passes the
content-type gate but whose service announcement mismatches returns an error,
yet the `line_provider` field — installed by `get_or_insert_with` before the
announcement check — is already `Some`, not `None` as on a fresh Transport. -/
theorem claim_C1_counterexample :
    (handshake (Transport.new "u" Protocol.V1) mismatch_http Service.uploadPack).1.isError =
      true ∧
    (handshake (Transport.new "u" Protocol.V1) mismatch_http
        Service.uploadPack).2.1.line_provider = some (Provider.new mismatch_get_body) :=
  ⟨by decide, by decide⟩

/-- C1 amended: on a freshly constructed Transport both fields are `None`; a
successful handshake leaves both `Some`; a handshake returning an error leaves
`service` still `None` — but `line_provider` may already be `Some`, since it is
installed as soon as the content-type gate passes, before the announcement
check (see the counterexample). -/
theorem claim_C1_amended (url : String) (ver : Protocol) (http : Http) (svc : Service) :
    (Transport.new url ver).service = none ∧
    (Transport.new url ver).line_provider = none ∧
    ((handshake (Transport.new url ver) http svc).1.isOk = true →
      (handshake (Transport.new url ver) http svc).2.1.service = some svc ∧
      ((handshake (Transport.new url ver) http svc).2.1.line_provider).isSome = true) ∧
    ((handshake (Transport.new url ver) http svc).1.isError = true →
      (handshake (Transport.new url ver) http svc).2.1.service = none) := by
  refine ⟨rfl, rfl, handshake_ok_state _ http svc, fun h => ?_⟩
  rw [handshake_error_service _ http svc h]
  rfl

theorem claim_C1_witness :
    (handshake (Transport.new "https://h/r" Protocol.V1) good_http
        Service.uploadPack).2.1.service = some Service.uploadPack ∧
    ((handshake (Transport.new "https://h/r" Protocol.V1) good_http
        Service.uploadPack).2.1.line_provider).isSome = true :=
  (claim_C1_amended "https://h/r" Protocol.V1 good_http Service.uploadPack).2.2.1 (by decide)

/-- C6 as stated is false on the code: the source compares the announcement
after Rust's two-sided `trim`, not after trimming only trailing whitespace.
With the announcement ` # service=git-upload-pack` (leading space), the line
still differs from the expected text after a trailing-only trim, yet the
handshake succeeds without any announcement-mismatch error. -/
theorem claim_C6_counterexample :
    spec_trim_trailing " # service=git-upload-pack" ≠
      ("# service=" ++ Service.uploadPack.as_str) ∧
    (handshake (Transport.new "u" Protocol.V1) padded_http Service.uploadPack).1.isOk = true :=
  ⟨by decide, by decide⟩

/-- C6 amended (trimming leading **and** trailing whitespace): when the GET
succeeds, the content-type gate passes, the announcement reads successfully and
the parser succeeds, handshake returns the announcement-mismatch error exactly
when the announced line after a two-sided trim differs from
`# service=<token>`, and that error's message carries both the expected and the
actual text. -/
theorem claim_C6 (t : Transport) (http : Http) (svc : Service)
    (resp : GetResponse) (a : String)
    (caps : List String × Option (List String))
    (hlp : t.line_provider = none)
    (hget : http.get (handshake_url t svc) (handshake_headers t) = Except.ok resp)
    (hct : check_content_type svc "advertisement" resp.headers = Except.ok ())
    (hann : resp.body.announced = Except.ok a)
    (hparse : resp.body.parsed = Except.ok caps) :
    (rust_trim a ≠ ("# service=" ++ svc.as_str) →
      (handshake t http svc).1 =
        Outcome.error (ClientError.http (HttpError.detail
          (mismatch_message ("# service=" ++ svc.as_str) (rust_trim a))))) ∧
    (rust_trim a = ("# service=" ++ svc.as_str) →
      (handshake t http svc).1.isOk = true) := by
  obtain ⟨caps1, caps2⟩ := caps
  constructor <;> intro h <;>
    simp [handshake, hget, hct, hlp, Provider.new, Provider.as_read_to_string, hann,
      capabilties_and_possibly_refs, hparse, h, Outcome.isOk]

theorem claim_C6_witness :
    (handshake (Transport.new "u" Protocol.V1) mismatch_http Service.uploadPack).1 =
      Outcome.error (ClientError.http (HttpError.detail
        (mismatch_message ("# service=" ++ Service.uploadPack.as_str)
          (rust_trim "# service=git-receive-pack")))) :=
  (claim_C6 (Transport.new "u" Protocol.V1) mismatch_http Service.uploadPack
      { headers := adv_headers, body := mismatch_get_body } "# service=git-receive-pack"
      ([], none) rfl rfl (by decide) rfl rfl).1 (by decide)

/-- C2 names required behavior the code does not implement: after a successful
handshake, `request` discards the POST response's header set without wrapping
the reply stream in the deferred-validation wrapper (the check is only a
commented-out TODO, mod.rs:120-121). At a POST response whose header set lacks
the expected `Content-Type: application/x-git-upload-pack-result` line — so the
content-type check for kind "result" would fail — the first read of the
returned reply stream nevertheless delivers the body bytes instead of an
I/O-level error. -/
theorem claim_C2_bug :
    check_content_type Service.uploadPack "result" [] ≠ Except.ok () ∧
    Option.map (fun w : RequestWriter => (w.reply.read_without_sidebands).1)
      ((request t_after_handshake good_http WriteMode.raw []).1.getOk?) =
      some (Except.ok [1, 2, 3]) :=
  ⟨by decide, by decide⟩

/-- C7 names intended behavior the code gets wrong: after a successful
handshake for the token `git-upload-pack`, the POST does go to
`<base>/git-upload-pack` with an explicitly empty `Expect:` header, but the
source writes a literal `git-` in front of `service.as_str()` so the
`Content-Type` and `Accept` lines double the prefix
(`application/x-git-git-upload-pack-...`), and the header lines the claim —
and the code's own `check_content_type` — expect are absent. -/
theorem claim_C7_bug :
    (handshake (Transport.new "https://h/r" Protocol.V1) good_http Service.uploadPack).1.isOk =
      true ∧
    (request t_after_handshake good_http WriteMode.raw []).2.2 =
      [HttpCall.post (append_url "https://h/r" Service.uploadPack.as_str)
        (request_headers Service.uploadPack)] ∧
    request_headers Service.uploadPack =
      ["Content-Type: application/x-git-git-upload-pack-request",
       "Accept: application/x-git-git-upload-pack-result",
       "Expect:"] ∧
    ("Content-Type: application/x-" ++ Service.uploadPack.as_str ++ "-request") ∉
      request_headers Service.uploadPack ∧
    ("Accept: application/x-" ++ Service.uploadPack.as_str ++ "-result") ∉
      request_headers Service.uploadPack :=
  ⟨by decide, by decide, by decide, by decide, by decide⟩

/-- Helper: one read-like operation against a wrapper still holding its header
set, fully characterized: a failing check yields the wrapped error and clears
the headers without touching the body; a passing check clears the headers and
delegates to the body. -/
theorem step_some_headers (svc : Service) (hs : List String) (b : BodyStream) (op : ReadOp) :
    HeadersThenBody.step ⟨svc, some hs, b⟩ op =
      match check_content_type svc "result" hs with
      | Except.error e => (Except.error (IoError.other e), ⟨svc, none, b⟩)
      | Except.ok _ => ((b.step op).1, ⟨svc, none, (b.step op).2⟩) := by
  cases op
  case read =>
    rcases hb : b.read with ⟨r, b1⟩
    cases hc : check_content_type svc "result" hs <;>
      simp [HeadersThenBody.step, HeadersThenBody.read, HeadersThenBody.handle_headers,
        BodyStream.step, hc, hb]
  case fillBuf =>
    rcases hb : b.fill_buf with ⟨r, b1⟩
    cases hc : check_content_type svc "result" hs <;>
      simp [HeadersThenBody.step, HeadersThenBody.fill_buf, HeadersThenBody.handle_headers,
        BodyStream.step, hc, hb]

/-- Helper: the first read-like operation clears the stored header set,
whatever the check's outcome. -/
theorem step_clears_headers (svc : Service) (hs : List String) (b : BodyStream) (op : ReadOp) :
    ((HeadersThenBody.step ⟨svc, some hs, b⟩ op).2).headers = none := by
  rw [step_some_headers]
  cases check_content_type svc "result" hs <;> rfl

/-- Helper: a wrapper whose header set is consumed delegates each read-like
operation to the inner body unchanged. -/
theorem step_delegates (h : HeadersThenBody) (hh : h.headers = none) (op : ReadOp) :
    h.step op = ((h.body.step op).1, { h with body := (h.body.step op).2 }) := by
  cases op
  case read =>
    rcases hb : h.body.read with ⟨r, b1⟩
    simp [HeadersThenBody.step, HeadersThenBody.read, HeadersThenBody.handle_headers,
      BodyStream.step, hh, hb]
  case fillBuf =>
    rcases hb : h.body.fill_buf with ⟨r, b1⟩
    simp [HeadersThenBody.step, HeadersThenBody.fill_buf, HeadersThenBody.handle_headers,
      BodyStream.step, hh, hb]

/-- Helper: a wrapper whose header set is consumed never invokes the check
again, over any sequence of read-like operations. -/
theorem checkInvocations_none (h : HeadersThenBody) (hh : h.headers = none)
    (ops : List ReadOp) : h.checkInvocations ops = 0 := by
  induction ops generalizing h with
  | nil => rfl
  | cons op ops ih =>
    rw [HeadersThenBody.checkInvocations, step_delegates h hh op]
    simp only [hh, Option.isSome_none, Bool.false_eq_true, if_false, Nat.zero_add]
    exact ih _ (by simp [hh])

/-- Helper: any non-empty sequence of read-like operations against a wrapper
holding headers invokes the check exactly once, on the first operation. -/
theorem checkInvocations_some (svc : Service) (hs : List String) (b : BodyStream)
    (op : ReadOp) (ops : List ReadOp) :
    HeadersThenBody.checkInvocations ⟨svc, some hs, b⟩ (op :: ops) = 1 := by
  rw [HeadersThenBody.checkInvocations,
    checkInvocations_none _ (step_clears_headers svc hs b op)]
  rfl

/-- C4: against a wrapper holding a header set, an empty sequence of read-like
operations never invokes the content-type check; any non-empty sequence invokes
it exactly once, on the first operation; that first operation clears the stored
header set whatever the check's outcome; once the headers are consumed every
read and fill_buf is exactly the inner body's operation, with no re-validation;
and when the check fails, the first operation returns the failure converted
into a generic I/O-level error. -/
theorem claim_C4 (svc : Service) (hs : List String) (b : BodyStream) :
    HeadersThenBody.checkInvocations ⟨svc, some hs, b⟩ [] = 0 ∧
    (∀ (op : ReadOp) (ops : List ReadOp),
      HeadersThenBody.checkInvocations ⟨svc, some hs, b⟩ (op :: ops) = 1) ∧
    (∀ op : ReadOp, ((HeadersThenBody.step ⟨svc, some hs, b⟩ op).2).headers = none) ∧
    (∀ (h : HeadersThenBody), h.headers = none → ∀ op : ReadOp,
      h.step op = ((h.body.step op).1, { h with body := (h.body.step op).2 })) ∧
    (∀ e : ClientError, check_content_type svc "result" hs = Except.error e →
      ∀ op : ReadOp,
        HeadersThenBody.step ⟨svc, some hs, b⟩ op =
          (Except.error (IoError.other e), ⟨svc, none, b⟩)) := by
  refine ⟨rfl, fun op ops => checkInvocations_some svc hs b op ops,
    fun op => step_clears_headers svc hs b op, step_delegates, fun e he op => ?_⟩
  rw [step_some_headers, he]

theorem claim_C4_witness :
    HeadersThenBody.checkInvocations ⟨Service.uploadPack, some [], ⟨[]⟩⟩
      [ReadOp.read, ReadOp.fillBuf] = 1 ∧
    HeadersThenBody.step ⟨Service.uploadPack, some [], ⟨[]⟩⟩ ReadOp.read =
      (Except.error (IoError.other (ClientError.http (HttpError.detail
        ("Didn't find '" ++ wanted_content_type Service.uploadPack "result" ++
          "' header to indicate 'smart' protocol, and 'dumb' protocol is not supported.")))),
        ⟨Service.uploadPack, none, ⟨[]⟩⟩) ∧
    HeadersThenBody.step ⟨Service.uploadPack, none, ⟨[]⟩⟩ ReadOp.read =
      (((⟨[]⟩ : BodyStream).step ReadOp.read).1,
        ⟨Service.uploadPack, none, ((⟨[]⟩ : BodyStream).step ReadOp.read).2⟩) :=
  ⟨(claim_C4 Service.uploadPack [] ⟨[]⟩).2.1 ReadOp.read [ReadOp.fillBuf],
   (claim_C4 Service.uploadPack [] ⟨[]⟩).2.2.2.2 _ (by decide) ReadOp.read,
   (claim_C4 Service.uploadPack [] ⟨[]⟩).2.2.2.1 ⟨Service.uploadPack, none, ⟨[]⟩⟩ rfl
     ReadOp.read⟩

end GitHttp
